import Mathlib

/-!
Verification of the devicectrl fan-controller command codec and transport
client.  Definitions are shallow embeddings of the Rust sources in
`src/fan.rs` and `src/transport.rs`: machine bytes are `Nat` values kept
below 256 by the surrounding code, wrapping arithmetic is explicit `% 256`
(or `% 2^32`), and fallible operations return `Except`.
-/

/-! ## Protocol constants (src/fan.rs lines 35-54) -/

def PACKET_LEN : Nat := 19

def PACKET_HEADER : List Nat := [0x20, 0x82, 0x00]

def FRAME_HEADER : List Nat := [0xF0, 0x08]

def XOR_LUT : List Nat := [
  0xB7, 0xFD, 0x93, 0x26, 0x36, 0x3F, 0xF7, 0xCC, 0x34, 0xA5, 0xE5, 0xF1, 0x71, 0xD8, 0x31, 0x15,
  0x04, 0xC7, 0x23, 0xC3, 0x18, 0x96, 0x05, 0x9A, 0x07, 0x12, 0x80, 0xE2, 0xEB, 0x27, 0xB2, 0x75,
  0xD0, 0xEF, 0xAA, 0xFB, 0x43, 0x4D, 0x33, 0x85, 0x45, 0xF9, 0x02, 0x7F, 0x50, 0x3C, 0x9F, 0xA8,
  0x51, 0xA3, 0x40, 0x8F, 0x92, 0x9D, 0x38, 0xF5, 0xBC, 0xB6, 0xDA, 0x21, 0x10, 0xFF, 0xF3, 0xD2,
  0xE0, 0x32, 0x3A, 0x0A, 0x49, 0x06, 0x24, 0x5C, 0xC2, 0xD3, 0xAC, 0x62, 0x91, 0x95, 0xE4, 0x79,
  0xE7, 0xC8, 0x37, 0x6D, 0x8D, 0xD5, 0x4E, 0xA9, 0x6C, 0x56, 0xF4, 0xEA, 0x65, 0x7A, 0xAE, 0x08,
  0xE1, 0xF8, 0x98, 0x11, 0x69, 0xD9, 0x8E, 0x94, 0x9B, 0x1E, 0x87, 0xE9, 0xCE, 0x55, 0x28, 0xDF,
  0x8C, 0xA1, 0x89, 0x0D, 0xBF, 0xE6, 0x42, 0x68, 0x41, 0x99, 0x2D, 0x0F, 0xB0, 0x54, 0xBB, 0x16]

def SEED : Nat := 0x2B53

def INDEX : Nat := 0

def DEVICE_TYPE : Nat := 1024

/-! ## External input types

`AttributeUpdate` and the numeric-update resolution `apply_to` live in the
external `devicectrl_common` crate; the spec (section 3) describes them as a
tagged union whose numeric variants carry a relative-or-absolute change
operator resolved against the current cached value and clamped to the
property range. -/

/-- Modelled from the spec: the relative-or-absolute change operator carried
by numeric `AttributeUpdate` variants (`devicectrl_common` is external to
this repository). -/
inductive NumericUpdate where
  | set (v : Int)
  | offset (d : Int)
deriving DecidableEq, Repr

/-- Modelled from the spec: resolve a numeric update against the current
value and clamp the result into the property range `[lo, hi]`. -/
def NumericUpdate.apply_to (u : NumericUpdate) (lo hi cur : Nat) : Nat :=
  let target : Int :=
    match u with
    | .set v => v
    | .offset d => (cur : Int) + d
  if target ≤ (lo : Int) then lo else if (hi : Int) ≤ target then hi else target.toNat

inductive FanDirection where
  | forward
  | reverse
deriving DecidableEq, Repr

/-- Modelled from the spec: the external `AttributeUpdate` tagged union,
restricted to the variants the fan codec in `src/fan.rs` consumes. -/
inductive AttributeUpdate where
  | brightness (u : NumericUpdate)
  | colorTemp (u : NumericUpdate)
  | fanDirection (d : FanDirection)
  | fanSpeed (u : NumericUpdate)
deriving DecidableEq, Repr

/-! ## Device state cache and packet data (src/fan.rs lines 60-112) -/

structure CachedFanState where
  tx_count : Nat
  power : Bool
  color_temp : Nat
  brightness : Nat
  speed : Nat
  remote_uid : Nat
deriving DecidableEq, Repr

/-- Command opcodes (`enum Cmd`, src/fan.rs lines 71-79). -/
inductive Cmd where
  | direction
  | fanSpeed
  | lightOn
  | lightOff
  | lightBrightnessTemperature
  | pair
deriving DecidableEq, Repr

def Cmd.code : Cmd → Nat
  | .direction => 0x15
  | .fanSpeed => 0x31
  | .lightOn => 0x10
  | .lightOff => 0x11
  | .lightBrightnessTemperature => 0x21
  | .pair => 0x28

structure PacketData where
  tx_count : Nat
  device_type : Nat
  uid : Nat
  index : Nat
  cmd : Nat
  arg0 : Nat
  arg1 : Nat
  arg2 : Nat
  seed : Nat
deriving DecidableEq, Repr

/-- Constructor `PacketData::new` (src/fan.rs lines 198-210). -/
def PacketData.new (tx_count uid : Nat) (cmd : Cmd) (arg0 arg1 arg2 : Nat) : PacketData :=
  { tx_count := tx_count
    device_type := DEVICE_TYPE
    uid := uid
    index := INDEX
    cmd := cmd.code
    arg0 := arg0
    arg1 := arg1
    arg2 := arg2
    seed := SEED }

/-! ## The combined brightness/temperature arguments

The Rust source computes, in `f32` arithmetic,
`(brightness * ((255. - temperature).min(127.) / 127.)).ceil() as u8` and
`(brightness * temperature.min(127.) / 127.).ceil() as u8`.
On the whole `u8 × u8` domain the `f32` round-off is below `2^-8 / 2`,
while a nonzero fractional part of the exact ratio is at least `1/127`,
so the `f32` ceiling coincides with the exact rational ceiling, which for
natural numerators is the rounding-up division below; the `as u8` cast
saturates at 255 (the values never exceed 255 on this domain). -/

def lightArg1 (brightness temperature : Nat) : Nat :=
  min ((brightness * min (255 - temperature) 127 + 126) / 127) 255

def lightArg2 (brightness temperature : Nat) : Nat :=
  min ((brightness * min temperature 127 + 126) / 127) 255

/-- The `LightBrightnessTemperature` packet pushed by the shared
brightness/color-temperature block (src/fan.rs lines 147-165), built from
the current cache contents. -/
def lightPacket (fs : CachedFanState) : PacketData :=
  PacketData.new fs.tx_count fs.remote_uid Cmd.lightBrightnessTemperature
    0 (lightArg1 fs.brightness fs.color_temp) (lightArg2 fs.brightness fs.color_temp)

/-- Translation of `PacketData::from_command` (src/fan.rs lines 115-197).
The source is a sequence of five `if let` blocks keyed on the (disjoint)
`AttributeUpdate` variants; the brightness and color-temperature blocks are
each followed by the shared combined-command block, so the translation
matches once on the variant and inlines the shared block into those two
arms.  Every push of a packet is followed by a wrapping increment of the
cached `tx_count`, exactly as in the source.  Note that the fan-speed arm
computes the clamped speed but, like the source, never stores it back into
the cache. -/
def PacketData.from_command (update : AttributeUpdate) (fs : CachedFanState) :
    List PacketData × CachedFanState :=
  match update with
  | .brightness b =>
      let bv := b.apply_to 0 255 fs.brightness
      let fs1 := { fs with brightness := bv }
      if (bv != 0) != fs1.power then
        let fs2 := { fs1 with power := bv != 0, tx_count := (fs1.tx_count + 1) % 256 }
        ([PacketData.new fs1.tx_count fs1.remote_uid
            (if bv == 0 then Cmd.lightOff else Cmd.lightOn) 0 0 0,
          lightPacket fs2],
         { fs2 with tx_count := (fs2.tx_count + 1) % 256 })
      else
        ([lightPacket fs1], { fs1 with tx_count := (fs1.tx_count + 1) % 256 })
  | .colorTemp c =>
      let fs1 := { fs with color_temp := c.apply_to 0 255 fs.color_temp }
      ([lightPacket fs1], { fs1 with tx_count := (fs1.tx_count + 1) % 256 })
  | .fanDirection d =>
      ([PacketData.new fs.tx_count fs.remote_uid Cmd.direction
          (match d with | .forward => 0 | .reverse => 1) 0 0],
       { fs with tx_count := (fs.tx_count + 1) % 256 })
  | .fanSpeed f =>
      let fan_speed := f.apply_to 0 6 fs.speed
      ([PacketData.new fs.tx_count fs.remote_uid Cmd.fanSpeed 32 fan_speed 0],
       { fs with tx_count := (fs.tx_count + 1) % 256 })

/-- Translation of `send_keepalive_to_fan` (src/fan.rs lines 331-344),
restricted to its state effect and emitted packet. -/
def send_keepalive_to_fan (fs : CachedFanState) : List PacketData × CachedFanState :=
  ([PacketData.new fs.tx_count fs.remote_uid Cmd.pair 0 0 0],
   { fs with tx_count := (fs.tx_count + 1) % 256 })

/-! ## Serialization (src/fan.rs lines 211-245) -/

def u16le (x : Nat) : List Nat := [x % 256, x / 256 % 256]

def u32le (x : Nat) : List Nat :=
  [x % 256, x / 256 % 256, x / 65536 % 256, x / 16777216 % 256]

/-- Translation of `PacketData::serialize` (src/fan.rs lines 211-226): the
19-byte layout, with the two reserved zero bytes at offsets 12 and 13. -/
def PacketData.serialize (p : PacketData) : List Nat :=
  PACKET_HEADER ++ [p.tx_count] ++ u16le p.device_type ++ u32le p.uid
    ++ [p.index, p.cmd, 0, 0, p.arg0, p.arg1, p.arg2] ++ u16le p.seed

/-- Translation of `PacketData::deserialize` (src/fan.rs lines 228-245).
The Rust input type is a fixed 19-byte array, so a list of any other length
is rejected. -/
def PacketData.deserialize (buf : List Nat) : Except String PacketData :=
  match buf with
  | [h0, h1, h2, b3, b4, b5, b6, b7, b8, b9, b10, b11, _, _, b14, b15, b16, b17, b18] =>
      if [h0, h1, h2] ≠ PACKET_HEADER then
        .error "Packet header does not match!"
      else
        .ok { tx_count := b3
              device_type := b4 + 256 * b5
              uid := b6 + 256 * b7 + 65536 * b8 + 16777216 * b9
              index := b10
              cmd := b11
              arg0 := b14
              arg1 := b15
              arg2 := b16
              seed := b17 + 256 * b18 }
  | _ => .error "Packet has wrong length!"

/-! ## Whitening (src/fan.rs lines 248-256) -/

/-- Salt used by `whiten`: the source computes it from the second byte of
the 3-byte `PACKET_HEADER` constant, `(0x82 & 0x3) << 5 = 64`. -/
def whitenSalt : Nat := (PACKET_HEADER.getD 1 0 &&& 0x3) <<< 5

def whitenFrom (seed : Nat) : Nat → List Nat → List Nat
  | _, [] => []
  | i, v :: rest =>
      (XOR_LUT.getD (((seed + i + 9) &&& 0x1F) + whitenSalt) 0 ^^^ seed ^^^ v)
        :: whitenFrom seed (i + 1) rest

/-- Translation of `whiten` (src/fan.rs lines 248-256): index-dependent
XOR keystream over the buffer. -/
def whiten (buffer : List Nat) (seed : Nat) : List Nat :=
  whitenFrom seed 0 buffer

/-- Modelled from the spec: the whitening salt as the spec describes it,
derived from the second byte of the 2-byte frame marker (`FRAME_HEADER`)
instead of the packet header: `(0x08 & 0x3) << 5 = 0`. -/
def whitenSaltSpec : Nat := (FRAME_HEADER.getD 1 0 &&& 0x3) <<< 5

def whitenSpecFrom (seed : Nat) : Nat → List Nat → List Nat
  | _, [] => []
  | i, v :: rest =>
      (XOR_LUT.getD (((seed + i + 9) &&& 0x1F) + whitenSaltSpec) 0 ^^^ seed ^^^ v)
        :: whitenSpecFrom seed (i + 1) rest

/-- Modelled from the spec: the whitening transform with the salt the spec
claims (frame-marker-derived), for comparison against the source. -/
def whitenSpec (buffer : List Nat) (seed : Nat) : List Nat :=
  whitenSpecFrom seed 0 buffer

/-! ## AES-128 (the external `aes` crate used by `sign`)

`sign` (src/fan.rs lines 258-286) calls `Aes128::encrypt_block` from the
external `aes` crate, which implements the FIPS-197 AES-128 block cipher.
The embedding below is standard AES-128: bytes are `Nat` values below 256,
the 16-byte state is a flat list in FIPS column-major byte order (byte `i`
sits at row `i % 4`, column `i / 4`). -/

def sbox : List Nat := [
  0x63, 0x7c, 0x77, 0x7b, 0xf2, 0x6b, 0x6f, 0xc5, 0x30, 0x01, 0x67, 0x2b, 0xfe, 0xd7, 0xab, 0x76,
  0xca, 0x82, 0xc9, 0x7d, 0xfa, 0x59, 0x47, 0xf0, 0xad, 0xd4, 0xa2, 0xaf, 0x9c, 0xa4, 0x72, 0xc0,
  0xb7, 0xfd, 0x93, 0x26, 0x36, 0x3f, 0xf7, 0xcc, 0x34, 0xa5, 0xe5, 0xf1, 0x71, 0xd8, 0x31, 0x15,
  0x04, 0xc7, 0x23, 0xc3, 0x18, 0x96, 0x05, 0x9a, 0x07, 0x12, 0x80, 0xe2, 0xeb, 0x27, 0xb2, 0x75,
  0x09, 0x83, 0x2c, 0x1a, 0x1b, 0x6e, 0x5a, 0xa0, 0x52, 0x3b, 0xd6, 0xb3, 0x29, 0xe3, 0x2f, 0x84,
  0x53, 0xd1, 0x00, 0xed, 0x20, 0xfc, 0xb1, 0x5b, 0x6a, 0xcb, 0xbe, 0x39, 0x4a, 0x4c, 0x58, 0xcf,
  0xd0, 0xef, 0xaa, 0xfb, 0x43, 0x4d, 0x33, 0x85, 0x45, 0xf9, 0x02, 0x7f, 0x50, 0x3c, 0x9f, 0xa8,
  0x51, 0xa3, 0x40, 0x8f, 0x92, 0x9d, 0x38, 0xf5, 0xbc, 0xb6, 0xda, 0x21, 0x10, 0xff, 0xf3, 0xd2,
  0xcd, 0x0c, 0x13, 0xec, 0x5f, 0x97, 0x44, 0x17, 0xc4, 0xa7, 0x7e, 0x3d, 0x64, 0x5d, 0x19, 0x73,
  0x60, 0x81, 0x4f, 0xdc, 0x22, 0x2a, 0x90, 0x88, 0x46, 0xee, 0xb8, 0x14, 0xde, 0x5e, 0x0b, 0xdb,
  0xe0, 0x32, 0x3a, 0x0a, 0x49, 0x06, 0x24, 0x5c, 0xc2, 0xd3, 0xac, 0x62, 0x91, 0x95, 0xe4, 0x79,
  0xe7, 0xc8, 0x37, 0x6d, 0x8d, 0xd5, 0x4e, 0xa9, 0x6c, 0x56, 0xf4, 0xea, 0x65, 0x7a, 0xae, 0x08,
  0xba, 0x78, 0x25, 0x2e, 0x1c, 0xa6, 0xb4, 0xc6, 0xe8, 0xdd, 0x74, 0x1f, 0x4b, 0xbd, 0x8b, 0x8a,
  0x70, 0x3e, 0xb5, 0x66, 0x48, 0x03, 0xf6, 0x0e, 0x61, 0x35, 0x57, 0xb9, 0x86, 0xc1, 0x1d, 0x9e,
  0xe1, 0xf8, 0x98, 0x11, 0x69, 0xd9, 0x8e, 0x94, 0x9b, 0x1e, 0x87, 0xe9, 0xce, 0x55, 0x28, 0xdf,
  0x8c, 0xa1, 0x89, 0x0d, 0xbf, 0xe6, 0x42, 0x68, 0x41, 0x99, 0x2d, 0x0f, 0xb0, 0x54, 0xbb, 0x16]

def sb (x : Nat) : Nat := sbox.getD x 0

def aesRcon : List Nat := [0x01, 0x02, 0x04, 0x08, 0x10, 0x20, 0x40, 0x80, 0x1B, 0x36]

/-- Multiplication by x in GF(2^8) modulo the AES polynomial. -/
def xtime (a : Nat) : Nat :=
  if a &&& 0x80 = 0 then (a <<< 1) &&& 0xFF else ((a <<< 1) ^^^ 0x1B) &&& 0xFF

/-- One step of the AES-128 key schedule: the next 4-byte word from the
previous word and the word four positions back. -/
def nextKeyWord (i : Nat) (wPrev wBack : List Nat) : List Nat :=
  let tmp :=
    if i % 4 = 0 then
      match (wPrev.drop 1 ++ wPrev.take 1).map sb with
      | t0 :: rest => (t0 ^^^ aesRcon.getD (i / 4 - 1) 0) :: rest
      | [] => []
    else wPrev
  List.zipWith (· ^^^ ·) wBack tmp

def keyExpandLoop : Nat → List (List Nat) → List (List Nat)
  | 0, w => w
  | n + 1, w =>
      keyExpandLoop n
        (w ++ [nextKeyWord w.length (w.getD (w.length - 1) []) (w.getD (w.length - 4) [])])

/-- AES-128 key expansion: the 44 schedule words from the 16-byte key. -/
def keyExpansion (key : List Nat) : List (List Nat) :=
  keyExpandLoop 40
    [key.take 4, (key.drop 4).take 4, (key.drop 8).take 4, (key.drop 12).take 4]

/-- Round key `r` as 16 bytes in state order (schedule words are columns). -/
def roundKey (ws : List (List Nat)) (r : Nat) : List Nat :=
  ((ws.drop (4 * r)).take 4).foldr (· ++ ·) []

def subBytes (s : List Nat) : List Nat := s.map sb

def shiftRows (s : List Nat) : List Nat :=
  (List.range 16).map (fun i => s.getD ((i % 4) + 4 * ((i / 4 + i % 4) % 4)) 0)

def mixColumn (a0 a1 a2 a3 : Nat) : List Nat :=
  [xtime a0 ^^^ (xtime a1 ^^^ a1) ^^^ a2 ^^^ a3,
   a0 ^^^ xtime a1 ^^^ (xtime a2 ^^^ a2) ^^^ a3,
   a0 ^^^ a1 ^^^ xtime a2 ^^^ (xtime a3 ^^^ a3),
   (xtime a0 ^^^ a0) ^^^ a1 ^^^ a2 ^^^ xtime a3]

def mixColumns (s : List Nat) : List Nat :=
  ((List.range 4).map
    (fun c => mixColumn (s.getD (4 * c) 0) (s.getD (4 * c + 1) 0)
      (s.getD (4 * c + 2) 0) (s.getD (4 * c + 3) 0))).foldr (· ++ ·) []

def addRoundKey (s rk : List Nat) : List Nat := List.zipWith (· ^^^ ·) s rk

/-- AES-128 single-block encryption (FIPS-197): 10 rounds, the last one
without MixColumns. -/
def aes128_encrypt (key block : List Nat) : List Nat :=
  let ws := keyExpansion key
  let s0 := addRoundKey block (roundKey ws 0)
  let s9 := (List.range 9).foldl
    (fun s r => addRoundKey (mixColumns (shiftRows (subBytes s))) (roundKey ws (r + 1))) s0
  addRoundKey (shiftRows (subBytes s9)) (roundKey ws 10)

/-! ## Signing (src/fan.rs lines 258-286) -/

/-- The 16-byte AES key built by `sign`: seed low byte, seed high byte, the
sequence byte, then 13 fixed vendor constants. -/
def signKey (tx_count seed : Nat) : List Nat :=
  [seed % 256, seed / 256 % 256, tx_count,
   0x0D, 0xBF, 0xE6, 0x42, 0x68, 0x41, 0x99, 0x2D, 0x0F, 0xB0, 0x54, 0xBB, 0x16]

/-- The little-endian value of the first two ciphertext bytes inside
`sign`, before the zero substitution. -/
def signLe (buffer : List Nat) (tx_count seed : Nat) : Nat :=
  let ct := aes128_encrypt (signKey tx_count seed) (buffer.take 16)
  ct.getD 0 0 + 256 * ct.getD 1 0

/-- Translation of `sign` (src/fan.rs lines 258-286): AES-128 encrypt the
first 16 bytes of the buffer under the derived key, take the first two
ciphertext bytes little-endian, and substitute 0xFFFF for a zero result. -/
def sign (buffer : List Nat) (tx_count seed : Nat) : Nat :=
  let s := signLe buffer tx_count seed
  if s ≠ 0 then s else 0xFFFF

/-- The sign value computed inside `encrypt` (src/fan.rs lines 288-296):
the seed is read from the last two serialized bytes, the first 17 bytes are
copied into a zero-padded 20-byte scratch buffer, and `sign` is called on
scratch bytes 1..17 with scratch byte 3 as the sequence byte. -/
def encryptSign (buf : List Nat) : Nat :=
  let seed := buf.getD (PACKET_LEN - 2) 0 + 256 * buf.getD (PACKET_LEN - 1) 0
  let msg_buf := buf.take 17 ++ [0, 0, 0]
  sign ((msg_buf.drop 1).take 16) (msg_buf.getD 3 0) seed

/-- Modelled from the spec: the sign value as the spec describes it,
computed over the FIRST 16 bytes (offsets 0..16, starting at the packet
header) of the serialized packet, for comparison against the source. -/
def encryptSignSpec (buf : List Nat) : Nat :=
  let seed := buf.getD (PACKET_LEN - 2) 0 + 256 * buf.getD (PACKET_LEN - 1) 0
  sign (buf.take 16) (buf.getD 3 0) seed

/-! ## Transport client streaming step (src/transport.rs lines 43-141)

One iteration of the `connect_to_server` streaming loop, as a pure step
function.  The elliptic-curve signature verification and the JSON decoding
are external (`p256`, `serde_json`); they enter as oracle parameters.  The
step returns the new expected-nonce state together with the list of
commands forwarded to the codec pipeline, or the error that tears the
connection down. -/

def u32be (x : Nat) : List Nat :=
  [x / 16777216 % 256, x / 65536 % 256, x / 256 % 256, x % 256]

inductive SimpleMessage where
  | updateCommand (device_id : Nat) (update : AttributeUpdate)
  | stateQuery (device_id : Nat)
  | other
deriving Repr

structure Frame where
  nonce : Nat
  payload : List Nat
  sig : List Nat
deriving Repr

/-- The byte region covered by the frame signature:
`nonce(4, big-endian) ++ length(4, big-endian) ++ payload`
(src/transport.rs lines 75-80). -/
def signedRegion (f : Frame) : List Nat :=
  u32be f.nonce ++ u32be f.payload.length ++ f.payload

/-- One iteration of the streaming loop of `connect_to_server`
(src/transport.rs lines 43-141).  The expected inbound nonce is first
incremented (wrapping at 2^32) and the frame nonce must equal it exactly;
only then are the signature checked, the payload decoded, and the command
forwarded. -/
def streamStep (verify : List Nat → List Nat → Bool)
    (decode : List Nat → Option SimpleMessage) (device_id : Nat)
    (expected_recv_nonce : Nat) (f : Frame) :
    Except String (Nat × List AttributeUpdate) :=
  let expected := (expected_recv_nonce + 1) % 4294967296
  if f.nonce ≠ expected then
    .error "Server nonce mismatch"
  else if ¬ verify (signedRegion f) f.sig then
    .error "signature verification failed"
  else
    match decode f.payload with
    | none => .error "failed to decode server message"
    | some (.updateCommand did u) =>
        if did ≠ device_id then
          .error "Update command device id does not match this device id"
        else .ok (expected, [u])
    | some (.stateQuery did) =>
        if did ≠ device_id then
          .error "State query device id does not match this device id"
        else .ok (expected, [])
    | some .other => .ok (expected, [])

/-! ## Operation sequences for the sequence-counter invariant -/

/-- One codec entry point: an attribute update or a keepalive. -/
inductive FanOp where
  | update (u : AttributeUpdate)
  | keepalive
deriving Repr

def runOp : FanOp → CachedFanState → List PacketData × CachedFanState
  | .update u, fs => PacketData.from_command u fs
  | .keepalive, fs => send_keepalive_to_fan fs

/-- Apply a sequence of operations in order, concatenating the emitted
packets in emission order. -/
def runOps : List FanOp → CachedFanState → List PacketData × CachedFanState
  | [], fs => ([], fs)
  | op :: ops, fs =>
      let r1 := runOp op fs
      let r2 := runOps ops r1.2
      (r1.1 ++ r2.1, r2.2)

/-- The expected sequence-number trace: `n` consecutive counter values
starting at `s`, each reduced mod 256. -/
def txSeq (s n : Nat) : List Nat :=
  (List.range n).map (fun i => (s + i) % 256)

/-- A concrete packet (the keepalive Pair packet at the bootstrap counter
16, uid 0) used to evaluate the signing pipeline at a specific input. -/
def pkt0 : PacketData :=
  { tx_count := 16, device_type := 1024, uid := 0, index := 0, cmd := 0x28,
    arg0 := 0, arg1 := 0, arg2 := 0, seed := 0x2B53 }

/-! ## Helper lemmas -/

lemma whitenFrom_involutive (seed : Nat) :
    ∀ (i : Nat) (b : List Nat), whitenFrom seed i (whitenFrom seed i b) = b := by
  intro i b
  induction b generalizing i with
  | nil => rfl
  | cons v rest ih =>
      simp only [whitenFrom]
      rw [← Nat.xor_assoc, Nat.xor_self, Nat.zero_xor, ih]

lemma whitenFrom_getD (seed : Nat) :
    ∀ (b : List Nat) (j i : Nat), i < b.length →
      (whitenFrom seed j b).getD i 0 =
        XOR_LUT.getD (((seed + (j + i) + 9) &&& 0x1F) + whitenSalt) 0 ^^^ seed ^^^ b.getD i 0 := by
  intro b
  induction b with
  | nil => intro j i h; simp at h
  | cons v rest ih =>
      intro j i h
      cases i with
      | zero => simp [whitenFrom]
      | succ i =>
          simp only [whitenFrom, List.getD_cons_succ]
          have := ih (j + 1) i (by simpa using Nat.lt_of_succ_lt_succ h)
          rw [this]
          ring_nf

/-! ## Claim theorems -/

/-- C8: for every byte buffer and every seed, applying the whitening
transform twice with the same seed returns the original buffer. -/
theorem c8_whiten_involution (buffer : List Nat) (seed : Nat) :
    whiten (whiten buffer seed) seed = buffer :=
  whitenFrom_involutive seed 0 buffer

/-- C3 counterexample: at buffer `[0]` and seed `0` the source whitening
(salt from `PACKET_HEADER[1] = 0x82`, so salt 64) disagrees with the
spec-described whitening (salt from `FRAME_HEADER[1] = 0x08`, so salt 0):
the outputs are `[0xD3]` and `[0xA5]`. -/
theorem c3_counterexample : whiten [0] 0 ≠ whitenSpec [0] 0 := by decide

/-- C3 amended: the whitening transform XORs each input byte with the seed
byte and with `XOR_LUT[((seed + i + 9) & 0x1F) + salt]`, where the salt is
derived from the second byte of the 3-byte PACKET header constant (0x82),
not the frame marker: `salt = (0x82 & 0x3) << 5 = 64`. -/
theorem c3_whiten_salt_from_packet_header (buffer : List Nat) (seed i : Nat)
    (h : i < buffer.length) :
    (whiten buffer seed).getD i 0 =
      XOR_LUT.getD (((seed + i + 9) &&& 0x1F) + ((PACKET_HEADER.getD 1 0 &&& 0x3) <<< 5)) 0
        ^^^ seed ^^^ buffer.getD i 0 := by
  have := whitenFrom_getD seed buffer 0 i h
  simpa [whiten, whitenSalt] using this

/-- C3 witness: the amended indexing equation instantiated at buffer
`[7, 8]`, seed `5`, index `1`. -/
theorem c3_witness :
    (1 < ([7, 8] : List Nat).length) ∧
    (whiten [7, 8] 5).getD 1 0 =
      XOR_LUT.getD (((5 + 1 + 9) &&& 0x1F) + ((PACKET_HEADER.getD 1 0 &&& 0x3) <<< 5)) 0
        ^^^ 5 ^^^ ([7, 8] : List Nat).getD 1 0 :=
  ⟨by decide, c3_whiten_salt_from_packet_header [7, 8] 5 1 (by decide)⟩

/-- C7: the sign function never returns 0: when the little-endian value of
the first two ciphertext bytes is 0 it returns 0xFFFF, otherwise it
returns that value. -/
theorem c7_sign_never_zero (buffer : List Nat) (tx_count seed : Nat) :
    sign buffer tx_count seed ≠ 0 ∧
    (signLe buffer tx_count seed = 0 → sign buffer tx_count seed = 0xFFFF) ∧
    (signLe buffer tx_count seed ≠ 0 →
      sign buffer tx_count seed = signLe buffer tx_count seed) := by
  unfold sign
  by_cases h : signLe buffer tx_count seed = 0 <;> simp [h]

/-- C6: a streaming-phase frame whose nonce is not exactly the expected
inbound nonce plus one (mod 2^32) makes the transport client fail the
connection with a nonce-mismatch error; no payload is processed and no
command is forwarded (the error result carries none), regardless of the
signature verifier and payload decoder. -/
theorem c6_nonce_strict (verify : List Nat → List Nat → Bool)
    (decode : List Nat → Option SimpleMessage) (device_id expected_recv_nonce : Nat)
    (f : Frame) (h : f.nonce ≠ (expected_recv_nonce + 1) % 4294967296) :
    streamStep verify decode device_id expected_recv_nonce f =
      .error "Server nonce mismatch" := by
  simp [streamStep, h]

/-- C6 witness: with expected nonce 5 a frame carrying nonce 8 (a skip
ahead past the expected 6) is rejected. -/
theorem c6_witness :
    ((8 : Nat) ≠ (5 + 1) % 4294967296) ∧
    streamStep (fun _ _ => true) (fun _ => none) 0 5 ⟨8, [], []⟩ =
      .error "Server nonce mismatch" :=
  ⟨by decide, c6_nonce_strict (fun _ _ => true) (fun _ => none) 0 5 ⟨8, [], []⟩ (by decide)⟩

/-- C10: a ColorTemperature update applied to any cache emits exactly one
packet, a LightBrightnessTemperature command (opcode 0x21), and leaves the
power, brightness, speed and remote_uid fields of the cache unchanged. -/
theorem c10_color_temp_single_packet (c : NumericUpdate) (fs : CachedFanState) :
    (PacketData.from_command (.colorTemp c) fs).1.map PacketData.cmd = [0x21] ∧
    (PacketData.from_command (.colorTemp c) fs).2.power = fs.power ∧
    (PacketData.from_command (.colorTemp c) fs).2.brightness = fs.brightness ∧
    (PacketData.from_command (.colorTemp c) fs).2.speed = fs.speed ∧
    (PacketData.from_command (.colorTemp c) fs).2.remote_uid = fs.remote_uid := by
  simp [PacketData.from_command, lightPacket, PacketData.new, Cmd.code]

/-- C5 (code bug): on cache speed 3, the update FanSpeed(set 5) emits the
correct single FanSpeed command (opcode 0x31, arg0 = 32, arg1 = 5,
arg2 = 0) but leaves the cached speed at 3: the source computes the
clamped speed and never stores it back into the cache. -/
theorem c5_speed_not_stored :
    (PacketData.from_command (.fanSpeed (.set 5))
      { tx_count := 16, power := true, color_temp := 0, brightness := 255,
        speed := 3, remote_uid := 77 }).2.speed = 3 ∧
    (PacketData.from_command (.fanSpeed (.set 5))
      { tx_count := 16, power := true, color_temp := 0, brightness := 255,
        speed := 3, remote_uid := 77 }).1.map
        (fun p => (p.cmd, p.arg0, p.arg1, p.arg2)) = [(0x31, 32, 5, 0)] := by
  decide

/-- C2: from cache state power true, brightness 255, color_temp 0 (any
sequence counter, speed and uid), a Brightness(set 0) update emits exactly
a LightOff command with zero arguments followed by a
LightBrightnessTemperature command with arg1 = 0 and arg2 = 0, and leaves
the cache with power false and brightness 0. -/
theorem c2_brightness_zero_scenario (tx sp uid : Nat) :
    (PacketData.from_command (.brightness (.set 0))
      { tx_count := tx, power := true, color_temp := 0, brightness := 255,
        speed := sp, remote_uid := uid }).1.map
        (fun p => (p.cmd, p.arg0, p.arg1, p.arg2)) = [(0x11, 0, 0, 0), (0x21, 0, 0, 0)] ∧
    (PacketData.from_command (.brightness (.set 0))
      { tx_count := tx, power := true, color_temp := 0, brightness := 255,
        speed := sp, remote_uid := uid }).2.power = false ∧
    (PacketData.from_command (.brightness (.set 0))
      { tx_count := tx, power := true, color_temp := 0, brightness := 255,
        speed := sp, remote_uid := uid }).2.brightness = 0 := by
  simp [PacketData.from_command, NumericUpdate.apply_to, lightPacket, lightArg1,
    lightArg2, PacketData.new, Cmd.code]

/-- C9: deserializing the serialization of a packet succeeds and reproduces
every field, and the two reserved bytes at offsets 12 and 13 of the
serialization are zero.  The multi-byte fields must be in range of their
Rust types (u16 device_type, u32 uid, u16 seed); the single-byte fields
round-trip unconditionally. -/
theorem c9_serialize_roundtrip (p : PacketData) (h1 : p.device_type < 65536)
    (h2 : p.uid < 4294967296) (h3 : p.seed < 65536) :
    PacketData.deserialize (PacketData.serialize p) = .ok p ∧
    (PacketData.serialize p).getD 12 0 = 0 ∧ (PacketData.serialize p).getD 13 0 = 0 := by
  obtain ⟨tx, dt, uid, idx, cmd, a0, a1, a2, seed⟩ := p
  have hdt : dt < 65536 := h1
  have huid : uid < 4294967296 := h2
  have hseed : seed < 65536 := h3
  refine ⟨?_, rfl, rfl⟩
  simp only [PacketData.serialize, u16le, u32le, PACKET_HEADER, List.cons_append,
    List.nil_append, PacketData.deserialize]
  norm_num [PacketData.mk.injEq]
  omega

/-- C9 witness: the round trip evaluated at a concrete packet. -/
theorem c9_witness :
    ((1024 : Nat) < 65536 ∧ (3000000000 : Nat) < 4294967296 ∧ (0x2B53 : Nat) < 65536) ∧
    (PacketData.deserialize (PacketData.serialize
      { tx_count := 16, device_type := 1024, uid := 3000000000, index := 0, cmd := 0x31,
        arg0 := 32, arg1 := 5, arg2 := 0, seed := 0x2B53 }) = .ok
      { tx_count := 16, device_type := 1024, uid := 3000000000, index := 0, cmd := 0x31,
        arg0 := 32, arg1 := 5, arg2 := 0, seed := 0x2B53 } ∧
    (PacketData.serialize
      { tx_count := 16, device_type := 1024, uid := 3000000000, index := 0, cmd := 0x31,
        arg0 := 32, arg1 := 5, arg2 := 0, seed := 0x2B53 }).getD 12 0 = 0 ∧
    (PacketData.serialize
      { tx_count := 16, device_type := 1024, uid := 3000000000, index := 0, cmd := 0x31,
        arg0 := 32, arg1 := 5, arg2 := 0, seed := 0x2B53 }).getD 13 0 = 0) :=
  ⟨by decide,
   c9_serialize_roundtrip _ (by decide) (by decide) (by decide)⟩

set_option maxRecDepth 10000 in
/-- C4 counterexample: at the concrete packet `pkt0`, the sign value the
source `encrypt` actually computes (over serialized bytes 1..17) differs
from the sign value the claim describes (over serialized bytes 0..16). -/
theorem c4_counterexample :
    encryptSign (PacketData.serialize pkt0) ≠ encryptSignSpec (PacketData.serialize pkt0) := by
  decide

/-- C4 amended: the 2-byte sign value is computed by AES-128
single-block-encrypting bytes 1..17 of the 19-byte serialized packet
(skipping the first packet-header byte), under the 16-byte key
`[seed_lo, seed_hi, sequence, 13 fixed vendor bytes]`, taking the first two
ciphertext bytes as a little-endian value (with the zero value replaced by
0xFFFF). -/
theorem c4_sign_covers_bytes_one_to_seventeen (p : PacketData) (h : p.seed < 65536) :
    encryptSign (PacketData.serialize p) =
      (let ct := aes128_encrypt
          [p.seed % 256, p.seed / 256 % 256, p.tx_count,
           0x0D, 0xBF, 0xE6, 0x42, 0x68, 0x41, 0x99, 0x2D, 0x0F, 0xB0, 0x54, 0xBB, 0x16]
          (((PacketData.serialize p).drop 1).take 16)
       let s := ct.getD 0 0 + 256 * ct.getD 1 0
       if s ≠ 0 then s else 0xFFFF) := by
  obtain ⟨tx, dt, uid, idx, cmd, a0, a1, a2, seed⟩ := p
  have hseed : seed < 65536 := h
  simp only [PacketData.serialize, u16le, u32le, PACKET_HEADER, PACKET_LEN,
    List.cons_append, List.nil_append, encryptSign, sign, signLe, signKey]
  norm_num
  rw [show seed % 256 + 256 * (seed / 256 % 256) = seed from by omega]

/-- C4 witness: the amended sign characterization at the concrete packet
`pkt0`. -/
theorem c4_witness :
    (pkt0.seed < 65536) ∧
    encryptSign (PacketData.serialize pkt0) =
      (let ct := aes128_encrypt
          [pkt0.seed % 256, pkt0.seed / 256 % 256, pkt0.tx_count,
           0x0D, 0xBF, 0xE6, 0x42, 0x68, 0x41, 0x99, 0x2D, 0x0F, 0xB0, 0x54, 0xBB, 0x16]
          (((PacketData.serialize pkt0).drop 1).take 16)
       let s := ct.getD 0 0 + 256 * ct.getD 1 0
       if s ≠ 0 then s else 0xFFFF) :=
  ⟨by decide, c4_sign_covers_bytes_one_to_seventeen pkt0 (by decide)⟩

lemma txSeq_append (s m n : Nat) :
    txSeq s m ++ txSeq ((s + m) % 256) n = txSeq s (m + n) := by
  unfold txSeq
  rw [List.range_add, List.map_append, List.map_map]
  congr 1
  have hf : ((fun i => (s + i) % 256) ∘ fun x => m + x) =
      fun i => ((s + m) % 256 + i) % 256 := by
    funext i
    simp only [Function.comp_apply]
    omega
  rw [hf]

lemma runOp_tx (op : FanOp) (fs : CachedFanState) (h : fs.tx_count < 256) :
    (runOp op fs).1.map PacketData.tx_count = txSeq fs.tx_count (runOp op fs).1.length ∧
    (runOp op fs).2.tx_count = (fs.tx_count + (runOp op fs).1.length) % 256 := by
  have hs : fs.tx_count % 256 = fs.tx_count := Nat.mod_eq_of_lt h
  cases op with
  | keepalive =>
      simp [runOp, send_keepalive_to_fan, txSeq, PacketData.new, List.range_succ, hs]
  | update u =>
      cases u with
      | brightness b =>
          simp only [runOp, PacketData.from_command]
          split
          · simp only [List.map_cons, List.map_nil, List.length_cons, List.length_nil]
            refine ⟨?_, ?_⟩
            · simp [lightPacket, PacketData.new, txSeq, List.range_succ, hs]
            · omega
          · simp [lightPacket, PacketData.new, txSeq, List.range_succ, hs]
      | colorTemp c =>
          simp [runOp, PacketData.from_command, lightPacket, PacketData.new, txSeq,
            List.range_succ, hs]
      | fanDirection d =>
          simp [runOp, PacketData.from_command, PacketData.new, txSeq, List.range_succ, hs]
      | fanSpeed f =>
          simp [runOp, PacketData.from_command, PacketData.new, txSeq, List.range_succ, hs]

lemma runOps_tx (ops : List FanOp) :
    ∀ fs : CachedFanState, fs.tx_count < 256 →
      (runOps ops fs).1.map PacketData.tx_count =
        txSeq fs.tx_count (runOps ops fs).1.length ∧
      (runOps ops fs).2.tx_count = (fs.tx_count + (runOps ops fs).1.length) % 256 := by
  induction ops with
  | nil => intro fs h; simp [runOps, txSeq, Nat.mod_eq_of_lt h]
  | cons op ops ih =>
      intro fs h
      have h1 := runOp_tx op fs h
      have hlt : (runOp op fs).2.tx_count < 256 := by
        rw [h1.2]; exact Nat.mod_lt _ (by norm_num)
      have h2 := ih (runOp op fs).2 hlt
      simp only [runOps, List.map_append, List.length_append]
      refine ⟨?_, ?_⟩
      · rw [h1.1, h2.1, h1.2]
        exact txSeq_append fs.tx_count (runOp op fs).1.length (runOps ops (runOp op fs).2).1.length
      · rw [h2.2, h1.2]
        omega

/-- C1: for any finite sequence of operations (attribute updates and
keepalives) applied in order to one cache whose sequence counter starts at
`s < 256`, the tx_count fields of all emitted packets, in emission order,
are exactly `s, s+1, s+2, ...` reduced mod 256 (the trace `txSeq`), with
no gaps and no repeats, and the final cached counter equals the start plus
the number of emitted packets, mod 256. -/
theorem c1_sequence_counter_consecutive (ops : List FanOp) (fs : CachedFanState)
    (h : fs.tx_count < 256) :
    (runOps ops fs).1.map PacketData.tx_count =
      txSeq fs.tx_count (runOps ops fs).1.length ∧
    (runOps ops fs).2.tx_count = (fs.tx_count + (runOps ops fs).1.length) % 256 :=
  runOps_tx ops fs h

/-- C1 witness: a brightness-to-zero update (which emits two packets)
followed by a keepalive, from counter 16: the three packets carry 16, 17,
18 and the counter ends at 19. -/
theorem c1_witness :
    (16 : Nat) < 256 ∧
    ((runOps [.update (.brightness (.set 0)), .keepalive]
        { tx_count := 16, power := true, color_temp := 0, brightness := 255,
          speed := 0, remote_uid := 7 }).1.map PacketData.tx_count =
      txSeq 16 (runOps [.update (.brightness (.set 0)), .keepalive]
        { tx_count := 16, power := true, color_temp := 0, brightness := 255,
          speed := 0, remote_uid := 7 }).1.length ∧
    (runOps [.update (.brightness (.set 0)), .keepalive]
        { tx_count := 16, power := true, color_temp := 0, brightness := 255,
          speed := 0, remote_uid := 7 }).2.tx_count =
      (16 + (runOps [.update (.brightness (.set 0)), .keepalive]
        { tx_count := 16, power := true, color_temp := 0, brightness := 255,
          speed := 0, remote_uid := 7 }).1.length) % 256) :=
  ⟨by decide,
   c1_sequence_counter_consecutive [.update (.brightness (.set 0)), .keepalive]
     { tx_count := 16, power := true, color_temp := 0, brightness := 255,
       speed := 0, remote_uid := 7 } (by decide)⟩
